import Mathlib

/-
Verification development for the PyAutoLens ray-tracing core
(src/analysis/ray_tracing.py: Tracer, MultiTracer, Plane).

The embedding is shallow: Python floats become rationals, numpy point
arrays become lists of rational pairs, and Python's fallible operations
(indexing, ordering comparisons against None, attribute access on
attributes that were never assigned, and the explicit exceptions raised
by the module) are modelled in the Except monad over an error inductive
mirroring the exception types that can escape.

The grid-stack collaborator (the masked image carrying the regular, sub
and blurring point grids together with its deflection / tracing /
intensity operations) lives outside the ray-tracing module; those
operations are modelled from the specification and are marked as such in
their doc comments.
-/

/-- Errors that can escape the ray-tracing module: the two domain
exceptions raised by the module itself (RayTracingException and
PixelizationException from the exc collaborator) and the Python built-in
errors its code can trigger (IndexError from list indexing, TypeError
from ordering None against a float, AttributeError from reading an
attribute that was never assigned). -/
inductive PyError where
  | indexError : PyError
  | typeError : PyError
  | attributeError : PyError
  | rayTracingException : PyError
  | pixelizationException : PyError
deriving DecidableEq, Repr

/-- A 2D coordinate (x, y), as carried by the regular, sub and blurring
grids of the masked image. -/
def Point : Type := ℚ × ℚ

instance : DecidableEq Point := instDecidableEqProd

/-- Pointwise addition of 2D coordinates (numpy array addition). -/
def addPoint (a b : Point) : Point := (a.1 + b.1, a.2 + b.2)

/-- Pointwise subtraction of 2D coordinates (numpy array subtraction). -/
def subPoint (a b : Point) : Point := (a.1 - b.1, a.2 - b.2)

/-- The masked image collaborator handed to the ray-tracing module: the
regular grid (one point per data pixel), the sub grid (sub_grid_size^2
sub-points per pixel) and the blurring grid, all as ordered point
sequences. -/
structure MaskedImage where
  regular : List Point
  sub : List Point
  blurring : List Point
  subGridSize : ℕ

/-- A deflection stack: one deflection vector per point of each of the
regular, sub and blurring grids. -/
structure GridStack where
  regular : List Point
  sub : List Point
  blurring : List Point

/-- The pixelization capability of a galaxy.  Its inversion operation
(inversion_from_pix_masked_image) is an external collaborator; it is
modelled as an abstract function of the masked image it is given,
returning an opaque token standing for the pixelization matrices. -/
structure Pixelization where
  inversionFromPixMaskedImage : MaskedImage → ℕ

/-- A galaxy as consumed by the ray-tracing module: an optional
redshift, light-profile intensity evaluators, mass-profile deflection
evaluators, and an optional pixelization. -/
structure Galaxy where
  redshift : Option ℚ
  lightProfiles : List (Point → ℚ)
  massProfiles : List (Point → Point)
  pixelization : Option Pixelization

/-- Modelled from the spec: the galaxy capability query has_pixelization
is true exactly when the galaxy carries a pixelization. -/
def hasPixelization (g : Galaxy) : Bool := g.pixelization.isSome

/-- The cosmology provider: arcsec_per_kpc_proper,
angular_diameter_distance and angular_diameter_distance_z1z2 as
functions of redshift, with all distances already converted to kpc. -/
structure Cosmology where
  arcsecPerKpcProper : ℚ → ℚ
  angularDiameterDistance : ℚ → ℚ
  angularDiameterDistanceZ1Z2 : ℚ → ℚ → ℚ

/-- Modelled from the spec: the summed deflection of a galaxy list at
one point, Sum over galaxies of Sum over mass profiles of the profile's
deflection at the point. -/
def sumDeflections (gs : List Galaxy) (p : Point) : Point :=
  gs.foldl (fun acc g => g.massProfiles.foldl (fun a f => addPoint a (f p)) acc) (0, 0)

/-- Modelled from the spec: the summed light-profile intensity of a
galaxy list at one point, Sum over galaxies of Sum over light profiles
of the profile's intensity at the point. -/
def sumIntensity (gs : List Galaxy) (p : Point) : ℚ :=
  gs.foldl (fun acc g => g.lightProfiles.foldl (fun a f => a + f p) acc) 0

/-- Modelled from the spec: deflection_masked_image_for_galaxies of the
grid-stack collaborator — the deflection field of the galaxies evaluated
independently at every point of the regular, sub and blurring grids. -/
def deflectionsFor (mi : MaskedImage) (gs : List Galaxy) : GridStack where
  regular := mi.regular.map (sumDeflections gs)
  sub := mi.sub.map (sumDeflections gs)
  blurring := mi.blurring.map (sumDeflections gs)

/-- Modelled from the spec: traced_masked_image_for_deflections of the
grid-stack collaborator — the propagation step, which subtracts the
deflection at each point from that point, independently for the regular,
sub and blurring grids, producing a new masked image. -/
def tracedMaskedImage (mi : MaskedImage) (d : GridStack) : MaskedImage where
  regular := List.zipWith subPoint mi.regular d.regular
  sub := List.zipWith subPoint mi.sub d.sub
  blurring := List.zipWith subPoint mi.blurring d.blurring
  subGridSize := mi.subGridSize

/-- Splits a list into consecutive chunks of n elements (fuel-driven so
that it reduces definitionally); used to group the sub grid into the
sub_grid_size^2 sub-points of each regular pixel. -/
def chunksAux (fuel : ℕ) (n : ℕ) (l : List α) : List (List α) :=
  match fuel, l with
  | 0, _ => []
  | _, [] => []
  | fuel + 1, x :: xs => (x :: xs.take (n - 1)) :: chunksAux fuel n (xs.drop (n - 1))

/-- Consecutive chunks of n elements of a list. -/
def chunks (n : ℕ) (l : List α) : List (List α) := chunksAux l.length n l

/-- Modelled from the spec: intensities_via_grid of the sub grid — for
every regular pixel, the arithmetic mean over its sub_grid_size^2
sub-points of the summed galaxy intensity (sub-grid averaging).  The
reshaping of the resulting 1D pixel sequence into the data's 2D array
via the mapping collaborator is external and omitted; images are kept as
1D pixel sequences. -/
def intensitiesViaSubGrid (mi : MaskedImage) (gs : List Galaxy) : List ℚ :=
  (chunks (mi.subGridSize ^ 2) mi.sub).map
    (fun c => (c.map (sumIntensity gs)).sum / ((mi.subGridSize : ℚ) ^ 2))

/-- Modelled from the spec: intensities_via_grid of the blurring grid —
the summed galaxy intensity at each blurring point directly (blurring
points are sampled at regular resolution, no sub-averaging). -/
def blurringIntensities (mi : MaskedImage) (gs : List Galaxy) : List ℚ :=
  mi.blurring.map (sumIntensity gs)

/-- Pointwise addition of two image arrays (numpy array addition). -/
def addLists (a b : List ℚ) : List ℚ := List.zipWith (fun x y => x + y) a b

/-- Python list indexing l[i] for a non-negative index: the element, or
IndexError when the index is out of range. -/
def pyGet (l : List α) (i : ℕ) : Except PyError α :=
  match l[i]? with
  | some a => .ok a
  | none => .error .indexError

/-- A plane of the ray-tracing calculation (class Plane).  The
cosmology-derived attributes are only assigned on some construction
paths, hence Option; deflections is the optionally computed deflection
stack. -/
structure Plane where
  arcsecPerKpc : Option ℚ
  kpcPerArcsec : Option ℚ
  angToEarthKpc : Option ℚ
  angToPreviousPlaneKpc : Option ℚ
  angToNextPlaneKpc : Option ℚ
  angNextPlaneToEarthKpc : Option ℚ
  criticalDensityKpc : Option ℚ
  criticalDensityArcsec : Option ℚ
  galaxies : List Galaxy
  maskedImage : MaskedImage
  deflections : Option GridStack

/-- Plane.__init__.  With no cosmology nothing cosmological is computed;
with a cosmology it reads galaxies[0].redshift (IndexError on an empty
list, TypeError when the astropy cosmology functions are fed a None
redshift), computes arcsec_per_kpc and the angular-diameter distances,
and, when next_redshift is present, the critical surface density from
constant_kpc = c^2 / (4 pi G) (a value of the external astropy constants
module, passed here as the parameter constantKpc).  Deflections are
computed eagerly iff compute_deflections is true. -/
def planeInit (galaxies : List Galaxy) (mi : MaskedImage)
    (previousRedshift nextRedshift : Option ℚ) (cosmology : Option Cosmology)
    (constantKpc : ℚ) (computeDeflections : Bool) : Except PyError Plane :=
  match cosmology with
  | none =>
    .ok { arcsecPerKpc := none, kpcPerArcsec := none, angToEarthKpc := none,
          angToPreviousPlaneKpc := none, angToNextPlaneKpc := none,
          angNextPlaneToEarthKpc := none, criticalDensityKpc := none,
          criticalDensityArcsec := none, galaxies := galaxies, maskedImage := mi,
          deflections := if computeDeflections then some (deflectionsFor mi galaxies) else none }
  | some c =>
    match galaxies[0]? with
    | none => .error .indexError
    | some g0 =>
      match g0.redshift with
      | none => .error .typeError
      | some z =>
        let apk := c.arcsecPerKpcProper z
        let kpa := 1 / apk
        let ate := c.angularDiameterDistance z
        let atp := previousRedshift.map (fun zp => c.angularDiameterDistanceZ1Z2 zp z)
        match nextRedshift with
        | none =>
          .ok { arcsecPerKpc := some apk, kpcPerArcsec := some kpa,
                angToEarthKpc := some ate, angToPreviousPlaneKpc := atp,
                angToNextPlaneKpc := none, angNextPlaneToEarthKpc := none,
                criticalDensityKpc := none, criticalDensityArcsec := none,
                galaxies := galaxies, maskedImage := mi,
                deflections := if computeDeflections then some (deflectionsFor mi galaxies) else none }
        | some zn =>
          let atn := c.angularDiameterDistanceZ1Z2 z zn
          let ante := c.angularDiameterDistance zn
          let cdk := constantKpc * ante / (atn * ate)
          let cda := cdk * kpa ^ 2
          .ok { arcsecPerKpc := some apk, kpcPerArcsec := some kpa,
                angToEarthKpc := some ate, angToPreviousPlaneKpc := atp,
                angToNextPlaneKpc := some atn, angNextPlaneToEarthKpc := some ante,
                criticalDensityKpc := some cdk, criticalDensityArcsec := some cda,
                galaxies := galaxies, maskedImage := mi,
                deflections := if computeDeflections then some (deflectionsFor mi galaxies) else none }

/-- Plane.trace_to_next_plane: reads self.deflections (AttributeError
when the plane was built with compute_deflections False, since the
attribute was then never assigned) and returns the traced masked
image. -/
def traceToNextPlane (p : Plane) : Except PyError MaskedImage :=
  match p.deflections with
  | some d => .ok (tracedMaskedImage p.maskedImage d)
  | none => .error .attributeError

/-- Plane.generate_image_of_galaxy_light_profiles: the sub-grid
intensities of the plane's galaxies on the plane's own masked image. -/
def planeGenerateImage (p : Plane) : List ℚ :=
  intensitiesViaSubGrid p.maskedImage p.galaxies

/-- Plane.generate_blurring_image_of_galaxy_light_profiles. -/
def planeGenerateBlurringImage (p : Plane) : List ℚ :=
  blurringIntensities p.maskedImage p.galaxies

/-- Plane.generate_pixelization_matrices_of_galaxy: None for zero
pixelized galaxies, the single pixelized galaxy's inversion for exactly
one, PixelizationException for more than one. -/
def planeGeneratePixelizationMatrices (p : Plane) : Except PyError (Option ℕ) :=
  match p.galaxies.filter (fun g => hasPixelization g) with
  | [] => .ok none
  | [g] =>
    match g.pixelization with
    | some px => .ok (some (px.inversionFromPixMaskedImage p.maskedImage))
    | none => .error .attributeError
  | _ :: _ :: _ => .error .pixelizationException

/-- The two-plane tracer (class Tracer): an image plane and a source
plane. -/
structure Tracer where
  cosmology : Option Cosmology
  imagePlane : Plane
  sourcePlane : Plane

/-- Tracer.__init__: builds the image plane from the lens galaxies on
the input masked image with deflections computed (next redshift taken
from source_galaxies[0]), traces it to obtain the source-plane masked
image, and builds the source plane from the source galaxies there with
no deflections (previous redshift taken from lens_galaxies[0]). -/
def tracerInit (lensGalaxies sourceGalaxies : List Galaxy) (mi : MaskedImage)
    (cosmology : Option Cosmology) (constantKpc : ℚ) : Except PyError Tracer :=
  match pyGet sourceGalaxies 0 with
  | .error e => .error e
  | .ok s0 =>
    match planeInit lensGalaxies mi none s0.redshift cosmology constantKpc true with
    | .error e => .error e
    | .ok imagePlane =>
      match traceToNextPlane imagePlane with
      | .error e => .error e
      | .ok sourcePlaneMaskedImage =>
        match pyGet lensGalaxies 0 with
        | .error e => .error e
        | .ok l0 =>
          match planeInit sourceGalaxies sourcePlaneMaskedImage l0.redshift none cosmology constantKpc false with
          | .error e => .error e
          | .ok sourcePlane =>
            .ok { cosmology := cosmology, imagePlane := imagePlane, sourcePlane := sourcePlane }

/-- Tracer.generate_image_of_galaxy_light_profiles: the image-plane
image plus the source-plane image. -/
def tracerGenerateImage (t : Tracer) : List ℚ :=
  addLists (planeGenerateImage t.imagePlane) (planeGenerateImage t.sourcePlane)

/-- Tracer.generate_blurring_image_of_galaxy_light_profiles. -/
def tracerGenerateBlurringImage (t : Tracer) : List ℚ :=
  addLists (planeGenerateBlurringImage t.imagePlane) (planeGenerateBlurringImage t.sourcePlane)

/-- Tracer.generate_pixelization_matrices_of_source_galaxy. -/
def tracerGeneratePixelizationMatrices (t : Tracer) : Except PyError (Option ℕ) :=
  planeGeneratePixelizationMatrices t.sourcePlane

/-- Python's comparison a < b on optional redshift keys: defined on two
floats, TypeError when either side is None. -/
def pyLt (a b : Option ℚ) : Except PyError Bool :=
  match a, b with
  | some x, some y => .ok (decide (x < y))
  | _, _ => .error .typeError

/-- One insertion step of the stable ascending sort of galaxies by
redshift (sorted(galaxies, key=...)); walks past list elements strictly
below the new galaxy's redshift, so equal-redshift galaxies keep their
original relative order.  Any comparison against a None redshift is a
TypeError, as in Python 3. -/
def insertE (x : Galaxy) : List Galaxy → Except PyError (List Galaxy)
  | [] => .ok [x]
  | y :: ys =>
    match pyLt y.redshift x.redshift with
    | .error e => .error e
    | .ok true =>
      match insertE x ys with
      | .error e => .error e
      | .ok r => .ok (y :: r)
    | .ok false => .ok (x :: y :: ys)

/-- sorted(galaxies, key=lambda galaxy: galaxy.redshift): stable
ascending sort, failing with TypeError when a None redshift meets a
comparison. -/
def sortE : List Galaxy → Except PyError (List Galaxy)
  | [] => .ok []
  | x :: xs =>
    match sortE xs with
    | .error e => .error e
    | .ok s => insertE x s

/-- The pure counterpart of the comparison used by the sort (False on
any None, where the monadic version fails). -/
def optLt (a b : Option ℚ) : Bool :=
  match a, b with
  | some x, some y => decide (x < y)
  | _, _ => false

/-- Pure counterpart of insertE (total, used to describe sortE's
successful results). -/
def insertP (x : Galaxy) : List Galaxy → List Galaxy
  | [] => [x]
  | y :: ys => if optLt y.redshift x.redshift then y :: insertP x ys else x :: y :: ys

/-- Pure counterpart of sortE. -/
def sortP : List Galaxy → List Galaxy
  | [] => []
  | x :: xs => insertP x (sortP xs)

/-- The list comprehension building planes_redshift_order: keeps each
redshift whose value did not already occur earlier in the list
(first-occurrence deduplication), threading the list of previously seen
redshifts. -/
def notInPriors (acc : List (Option ℚ)) : List (Option ℚ) → List (Option ℚ)
  | [] => []
  | r :: rest =>
    if r ∈ acc then notInPriors (acc ++ [r]) rest
    else r :: notInPriors (acc ++ [r]) rest

/-- The multi-plane tracer (class MultiTracer). -/
structure MultiTracer where
  cosmology : Option Cosmology
  galaxiesRedshiftOrder : List Galaxy
  planesRedshiftOrder : List (Option ℚ)
  planesGalaxies : List (List Galaxy)
  planes : List Plane

/-- The body of one iteration of MultiTracer.__init__'s plane-building
loop at index i: the first plane takes the input masked image and
order[1] as next redshift (IndexError when only one plane exists);
middle planes and the last plane take the traced image of the previous
plane; only the last plane is built without deflections.  The final else
(raising RayTracingException) is kept although no index reaches it. -/
def mtBranch (cosmology : Option Cosmology) (constantKpc : ℚ)
    (order : List (Option ℚ)) (groups : List (List Galaxy)) (mi : MaskedImage)
    (acc : List Plane) (i : ℕ) : Except PyError Plane :=
  if i = 0 then
    match pyGet order 1 with
    | .error e => .error e
    | .ok nz =>
      match pyGet groups i with
      | .error e => .error e
      | .ok gal => planeInit gal mi none nz cosmology constantKpc true
  else if i < order.length - 1 then
    match pyGet order (i - 1) with
    | .error e => .error e
    | .ok pz =>
      match pyGet order (i + 1) with
      | .error e => .error e
      | .ok nz =>
        match pyGet acc (i - 1) with
        | .error e => .error e
        | .ok prevPlane =>
          match traceToNextPlane prevPlane with
          | .error e => .error e
          | .ok grid =>
            match pyGet groups i with
            | .error e => .error e
            | .ok gal => planeInit gal grid pz nz cosmology constantKpc true
  else if i = order.length - 1 then
    match pyGet order (i - 1) with
    | .error e => .error e
    | .ok pz =>
      match pyGet acc (i - 1) with
      | .error e => .error e
      | .ok prevPlane =>
        match traceToNextPlane prevPlane with
        | .error e => .error e
        | .ok grid =>
          match pyGet groups i with
          | .error e => .error e
          | .ok gal => planeInit gal grid pz none cosmology constantKpc false
  else .error .rayTracingException

/-- MultiTracer.__init__'s plane-building loop: for i in
range(0, len(planes_redshift_order)), appending each built plane. -/
def mtGo (cosmology : Option Cosmology) (constantKpc : ℚ)
    (order : List (Option ℚ)) (groups : List (List Galaxy)) (mi : MaskedImage) :
    ℕ → List Plane → ℕ → Except PyError (List Plane)
  | _, acc, 0 => .ok acc
  | i, acc, rem + 1 =>
    match mtBranch cosmology constantKpc order groups mi acc i with
    | .error e => .error e
    | .ok pl => mtGo cosmology constantKpc order groups mi (i + 1) (acc ++ [pl]) rem

/-- MultiTracer.__init__: sorts the galaxies by redshift (stable,
ascending), deduplicates the redshift sequence into
planes_redshift_order, groups the sorted galaxies by redshift into
planes_galaxies (filter(None, ...) only drops the None placeholders of
the map step), and runs the plane-building loop. -/
def multiTracerInit (galaxies : List Galaxy) (mi : MaskedImage)
    (cosmology : Option Cosmology) (constantKpc : ℚ) : Except PyError MultiTracer :=
  match sortE galaxies with
  | .error e => .error e
  | .ok sorted =>
    match mtGo cosmology constantKpc (notInPriors [] (sorted.map (fun g => g.redshift)))
        ((notInPriors [] (sorted.map (fun g => g.redshift))).map
          (fun z => sorted.filter (fun g => decide (g.redshift = z)))) mi 0 []
        (notInPriors [] (sorted.map (fun g => g.redshift))).length with
    | .error e => .error e
    | .ok planes =>
      .ok { cosmology := cosmology, galaxiesRedshiftOrder := sorted,
            planesRedshiftOrder := notInPriors [] (sorted.map (fun g => g.redshift)),
            planesGalaxies := (notInPriors [] (sorted.map (fun g => g.redshift))).map
              (fun z => sorted.filter (fun g => decide (g.redshift = z))),
            planes := planes }

/-- A plane as produced by Plane.__init__ when no cosmology is supplied:
no cosmological attribute is assigned, the galaxy list is stored as
given, and deflections are computed iff requested. -/
def planeNoCosmology (galaxies : List Galaxy) (mi : MaskedImage)
    (computeDeflections : Bool) : Plane where
  arcsecPerKpc := none
  kpcPerArcsec := none
  angToEarthKpc := none
  angToPreviousPlaneKpc := none
  angToNextPlaneKpc := none
  angNextPlaneToEarthKpc := none
  criticalDensityKpc := none
  criticalDensityArcsec := none
  galaxies := galaxies
  maskedImage := mi
  deflections := if computeDeflections then some (deflectionsFor mi galaxies) else none

/-- Concrete fixture: a small masked image with two regular points, two
sub points (sub_grid_size 1) and one blurring point. -/
def cMi : MaskedImage where
  regular := [((1 : ℚ), (1 : ℚ)), ((2 : ℚ), (0 : ℚ))]
  sub := [((1 : ℚ), (1 : ℚ)), ((2 : ℚ), (0 : ℚ))]
  blurring := [((3 : ℚ), (3 : ℚ))]
  subGridSize := 1

/-- Concrete fixture: a redshift-1 galaxy with neither profiles nor
pixelization. -/
def gZ1 : Galaxy := { redshift := some 1, lightProfiles := [], massProfiles := [], pixelization := none }

/-- Concrete fixture: a second redshift-1 galaxy, distinguishable from
gZ1 by a light profile. -/
def gZ1b : Galaxy := { redshift := some 1, lightProfiles := [fun p => p.2], massProfiles := [], pixelization := none }

/-- Concrete fixture: a redshift-2 galaxy. -/
def gZ2 : Galaxy := { redshift := some 2, lightProfiles := [], massProfiles := [], pixelization := none }

/-- Concrete fixture: a galaxy with no redshift. -/
def gNone : Galaxy := { redshift := none, lightProfiles := [], massProfiles := [], pixelization := none }

/-- Concrete fixture: a redshift-1 lens galaxy with one mass profile and
one light profile. -/
def gMass : Galaxy where
  redshift := some 1
  lightProfiles := [fun _ => 3]
  massProfiles := [fun p => (p.2, p.1)]
  pixelization := none

/-- Concrete fixture: a redshift-2 source galaxy with one light
profile. -/
def gSrc : Galaxy where
  redshift := some 2
  lightProfiles := [fun p => p.1 + p.2]
  massProfiles := []
  pixelization := none

/-- Concrete fixture: the image plane of the two-plane tracer over cMi
with lens galaxy gMass. -/
def imagePlaneW : Plane := planeNoCosmology [gMass] cMi true

/-- Concrete fixture: the traced source-plane masked image of the
two-plane tracer fixture. -/
def srcGridW : MaskedImage := tracedMaskedImage cMi (deflectionsFor cMi [gMass])

/-- Concrete fixture: the source plane of the two-plane tracer. -/
def sourcePlaneW : Plane := planeNoCosmology [gSrc] srcGridW false

/-- Concrete fixture: the two-plane tracer over cMi with lens gMass and
source gSrc and no cosmology. -/
def trW : Tracer := { cosmology := none, imagePlane := imagePlaneW, sourcePlane := sourcePlaneW }

/-- Concrete fixture: first plane of the two-plane MultiTracer over
galaxies gZ1 and gZ2. -/
def p0W : Plane := planeNoCosmology [gZ1] cMi true

/-- Concrete fixture: the traced grid feeding the second plane of the
MultiTracer fixture. -/
def grid1W : MaskedImage := tracedMaskedImage cMi (deflectionsFor cMi [gZ1])

/-- Concrete fixture: last plane of the two-plane MultiTracer. -/
def p1W : Plane := planeNoCosmology [gZ2] grid1W false

/-- Concrete fixture: the MultiTracer built from [gZ1, gZ2] on cMi with
no cosmology. -/
def mtW : MultiTracer where
  cosmology := none
  galaxiesRedshiftOrder := [gZ1, gZ2]
  planesRedshiftOrder := [some 1, some 2]
  planesGalaxies := [[gZ1], [gZ2]]
  planes := [p0W, p1W]

/-- Concrete fixture for the redshift tie-break scenario: galaxy at
redshift 2, supplied first. -/
def gaW : Galaxy := { redshift := some 2, lightProfiles := [fun _ => 1], massProfiles := [], pixelization := none }

/-- Concrete fixture for the tie-break scenario: galaxy at redshift 1,
supplied second. -/
def gbW : Galaxy := { redshift := some 1, lightProfiles := [fun _ => 2], massProfiles := [], pixelization := none }

/-- Concrete fixture for the tie-break scenario: a second redshift-2
galaxy, supplied third. -/
def gcW : Galaxy := { redshift := some 2, lightProfiles := [fun _ => 4], massProfiles := [], pixelization := none }

/-- Concrete fixture: first plane (redshift 1) of the tie-break
MultiTracer. -/
def p0W3 : Plane := planeNoCosmology [gbW] cMi true

/-- Concrete fixture: traced grid of the tie-break MultiTracer. -/
def grid1W3 : MaskedImage := tracedMaskedImage cMi (deflectionsFor cMi [gbW])

/-- Concrete fixture: last plane (redshift 2, both tied galaxies in
input order) of the tie-break MultiTracer. -/
def p1W3 : Plane := planeNoCosmology [gaW, gcW] grid1W3 false

/-- Concrete fixture: the MultiTracer built from [gaW, gbW, gcW] on cMi
with no cosmology: plane order [1, 2], with the tied redshift-2
galaxies merged in input order. -/
def mtW3 : MultiTracer where
  cosmology := none
  galaxiesRedshiftOrder := [gbW, gaW, gcW]
  planesRedshiftOrder := [some 1, some 2]
  planesGalaxies := [[gbW], [gaW, gcW]]
  planes := [p0W3, p1W3]

/-- Concrete fixture: a cosmology provider with simple exact rational
functions. -/
def cW : Cosmology where
  arcsecPerKpcProper := fun z => z + 1
  angularDiameterDistance := fun z => 2 * z + 1
  angularDiameterDistanceZ1Z2 := fun a b => a + b

/-- Concrete fixture: the plane built from [gZ1] on cMi with cosmology
cW, previous redshift 5, next redshift 2, constant 3 and no
deflections. -/
def planeC7 : Plane where
  arcsecPerKpc := some (cW.arcsecPerKpcProper 1)
  kpcPerArcsec := some (1 / cW.arcsecPerKpcProper 1)
  angToEarthKpc := some (cW.angularDiameterDistance 1)
  angToPreviousPlaneKpc := some (cW.angularDiameterDistanceZ1Z2 5 1)
  angToNextPlaneKpc := some (cW.angularDiameterDistanceZ1Z2 1 2)
  angNextPlaneToEarthKpc := some (cW.angularDiameterDistance 2)
  criticalDensityKpc := some (3 * cW.angularDiameterDistance 2 /
    (cW.angularDiameterDistanceZ1Z2 1 2 * cW.angularDiameterDistance 1))
  criticalDensityArcsec := some (3 * cW.angularDiameterDistance 2 /
    (cW.angularDiameterDistanceZ1Z2 1 2 * cW.angularDiameterDistance 1) *
    (1 / cW.arcsecPerKpcProper 1) ^ 2)
  galaxies := [gZ1]
  maskedImage := cMi
  deflections := none

/-- Concrete fixture: a plane built with compute_deflections False (for
the missing-attribute scenario). -/
def planeNoDeflW : Plane := planeNoCosmology [gZ1] cMi false

/-- Concrete fixture: a pixelization token. -/
def pixA : Pixelization := { inversionFromPixMaskedImage := fun _ => 7 }

/-- Concrete fixture: a second pixelization token. -/
def pixB : Pixelization := { inversionFromPixMaskedImage := fun _ => 8 }

/-- Concrete fixture: a galaxy carrying pixelization pixA. -/
def gPixA : Galaxy := { redshift := some 1, lightProfiles := [], massProfiles := [], pixelization := some pixA }

/-- Concrete fixture: a galaxy carrying pixelization pixB. -/
def gPixB : Galaxy := { redshift := some 1, lightProfiles := [], massProfiles := [], pixelization := some pixB }

/-- Concrete fixture: a plane containing two pixelized galaxies. -/
def planePix2 : Plane := planeNoCosmology [gPixA, gPixB] cMi false

/-- Concrete fixture: a plane containing exactly one pixelized
galaxy. -/
def planePix1 : Plane := planeNoCosmology [gPixA, gZ1] cMi false

/-- Python indexing succeeds exactly on in-range indices. -/
theorem pyGet_ok {l : List α} {i : ℕ} {a : α} (h : pyGet l i = .ok a) : l[i]? = some a := by
  unfold pyGet at h
  cases hg : l[i]? with
  | none => rw [hg] at h; cases h
  | some b => rw [hg] at h; cases h; rfl

/-- Whatever construction path Plane.__init__ takes, the galaxy list and
masked image are stored as given and the deflection stack is computed
exactly when compute_deflections is true. -/
theorem planeInit_fields {gs : List Galaxy} {mi : MaskedImage} {pz nz : Option ℚ}
    {c : Option Cosmology} {ck : ℚ} {cd : Bool} {p : Plane}
    (h : planeInit gs mi pz nz c ck cd = .ok p) :
    p.galaxies = gs ∧ p.maskedImage = mi ∧
    p.deflections = (if cd then some (deflectionsFor mi gs) else none) := by
  unfold planeInit at h
  split at h
  · simp only [Except.ok.injEq] at h
    subst h
    exact ⟨rfl, rfl, rfl⟩
  · split at h
    · cases h
    · split at h
      · cases h
      · split at h
        · simp only [Except.ok.injEq] at h
          subst h
          exact ⟨rfl, rfl, rfl⟩
        · simp only [Except.ok.injEq] at h
          subst h
          exact ⟨rfl, rfl, rfl⟩

/-- C9: a plane built with compute_deflections False has no deflection
attribute and trace_to_next_plane on it fails with the missing-attribute
error; with compute_deflections True the deflection stack is present and
trace_to_next_plane returns the traced masked image. -/
theorem claimC9 :
    (∀ gs mi pz nz c ck p, planeInit gs mi pz nz c ck false = .ok p →
        p.deflections = none ∧ traceToNextPlane p = .error .attributeError) ∧
    (∀ gs mi pz nz c ck p, planeInit gs mi pz nz c ck true = .ok p →
        p.deflections = some (deflectionsFor mi gs) ∧
        traceToNextPlane p = .ok (tracedMaskedImage mi (deflectionsFor mi gs))) := by
  constructor
  · intro gs mi pz nz c ck p h
    obtain ⟨-, hmi, hd⟩ := planeInit_fields h
    simp only [if_neg (by simp : ¬ (false = true))] at hd
    refine ⟨hd, ?_⟩
    simp [traceToNextPlane, hd]
  · intro gs mi pz nz c ck p h
    obtain ⟨-, hmi, hd⟩ := planeInit_fields h
    simp only [if_pos rfl] at hd
    refine ⟨hd, ?_⟩
    simp [traceToNextPlane, hd, hmi]

/-- Witness for C9 at a concrete plane over cMi. -/
theorem claimC9_witness :
    (planeNoDeflW.deflections = none ∧
      traceToNextPlane planeNoDeflW = .error .attributeError) ∧
    (p0W.deflections = some (deflectionsFor cMi [gZ1]) ∧
      traceToNextPlane p0W = .ok (tracedMaskedImage cMi (deflectionsFor cMi [gZ1]))) :=
  ⟨claimC9.1 [gZ1] cMi none none none 1 planeNoDeflW rfl,
   claimC9.2 [gZ1] cMi none none none 1 p0W rfl⟩

/-- C3 counterexample: Plane.__init__ performs no validation, so a plane
with two galaxies of different non-null redshifts, and a plane with an
empty galaxy list, both construct successfully (no cosmology supplied),
instead of failing with RayTracingException as the claim states. -/
theorem claimC3_counterexample :
    (planeInit [gZ1, gZ2] cMi none none none 1 true).isOk = true ∧
    (planeInit ([] : List Galaxy) cMi none none none 1 true).isOk = true :=
  ⟨rfl, rfl⟩

/-- C3 amended: Plane construction performs no redshift or emptiness
validation.  With no cosmology any galaxy list — empty or of
heterogeneous redshift — constructs successfully with the galaxies
stored as given (so no homogeneity invariant holds); with a cosmology an
empty galaxy list fails with IndexError (from galaxies[0]), not
RayTracingException. -/
theorem claimC3 :
    (∀ gs mi pz nz ck cd,
        planeInit gs mi pz nz none ck cd = .ok (planeNoCosmology gs mi cd)) ∧
    (∀ mi pz nz c ck cd,
        planeInit ([] : List Galaxy) mi pz nz (some c) ck cd = .error .indexError) := by
  constructor
  · intro gs mi pz nz ck cd
    rfl
  · intro mi pz nz c ck cd
    rfl

/-- C6: with two or more pixelized galaxies in a plane the pixelization
lookup fails with PixelizationException; with exactly one it returns
that galaxy's inversion of the plane's masked image. -/
theorem claimC6 (p : Plane) :
    (2 ≤ (p.galaxies.filter (fun g => hasPixelization g)).length →
      planeGeneratePixelizationMatrices p = .error .pixelizationException) ∧
    (∀ g px, p.galaxies.filter (fun g => hasPixelization g) = [g] →
      g.pixelization = some px →
      planeGeneratePixelizationMatrices p =
        .ok (some (px.inversionFromPixMaskedImage p.maskedImage))) := by
  constructor
  · intro hlen
    unfold planeGeneratePixelizationMatrices
    cases hf : p.galaxies.filter (fun g => hasPixelization g) with
    | nil => rw [hf] at hlen; simp at hlen
    | cons a t =>
      cases t with
      | nil => rw [hf] at hlen; simp at hlen
      | cons b t2 => rfl
  · intro g px hf hpx
    unfold planeGeneratePixelizationMatrices
    rw [hf]
    simp [hpx]

/-- Witness for C6: a plane with two pixelized galaxies fails, a plane
with exactly one returns its inversion. -/
theorem claimC6_witness :
    planeGeneratePixelizationMatrices planePix2 = .error .pixelizationException ∧
    planeGeneratePixelizationMatrices planePix1 =
      .ok (some (pixA.inversionFromPixMaskedImage planePix1.maskedImage)) :=
  ⟨(claimC6 planePix2).1 (by decide), (claimC6 planePix1).2 gPixA pixA rfl rfl⟩

/-- C7: a plane constructed with a cosmology and with both a previous
and a next redshift carries
critical_density_kpc = constant_kpc * D_next_to_earth /
(D_this_to_next * D_this_to_earth) and critical_density_arcsec =
critical_density_kpc * kpc_per_arcsec^2, the distances being exactly the
angular-diameter distances supplied by the cosmology provider and
constant_kpc standing for c^2 / (4 pi G). -/
theorem claimC7 (gs : List Galaxy) (mi : MaskedImage) (zp zn : ℚ) (c : Cosmology)
    (ck : ℚ) (cd : Bool) (g0 : Galaxy) (z : ℚ) (p : Plane)
    (hg : gs[0]? = some g0) (hz : g0.redshift = some z)
    (h : planeInit gs mi (some zp) (some zn) (some c) ck cd = .ok p) :
    p.criticalDensityKpc = some (ck * c.angularDiameterDistance zn /
        (c.angularDiameterDistanceZ1Z2 z zn * c.angularDiameterDistance z)) ∧
    p.criticalDensityArcsec = some (ck * c.angularDiameterDistance zn /
        (c.angularDiameterDistanceZ1Z2 z zn * c.angularDiameterDistance z) *
        (1 / c.arcsecPerKpcProper z) ^ 2) := by
  unfold planeInit at h
  rw [hg] at h
  simp only [hz, Except.ok.injEq] at h
  subst h
  exact ⟨rfl, rfl⟩

/-- Witness for C7 at the concrete cosmology cW, redshifts 1 (plane),
5 (previous), 2 (next) and constant 3. -/
theorem claimC7_witness :
    planeC7.criticalDensityKpc = some (3 * cW.angularDiameterDistance 2 /
        (cW.angularDiameterDistanceZ1Z2 1 2 * cW.angularDiameterDistance 1)) ∧
    planeC7.criticalDensityArcsec = some (3 * cW.angularDiameterDistance 2 /
        (cW.angularDiameterDistanceZ1Z2 1 2 * cW.angularDiameterDistance 1) *
        (1 / cW.arcsecPerKpcProper 1) ^ 2) :=
  claimC7 [gZ1] cMi 5 2 cW 3 false gZ1 1 planeC7 rfl rfl rfl

/-- Comparing with a None redshift on the left is a TypeError. -/
theorem pyLt_none_left (b : Option ℚ) : pyLt none b = .error .typeError := rfl

/-- Comparing with a None redshift on the right is a TypeError. -/
theorem pyLt_none_right (a : Option ℚ) : pyLt a none = .error .typeError := by
  cases a <;> rfl

/-- The pure comparison is irreflexive. -/
theorem optLt_irrefl (a : Option ℚ) : optLt a a = false := by
  cases a with
  | none => rfl
  | some x => simp [optLt]

/-- A successful pure comparison separates its arguments. -/
theorem optLt_ne {a b : Option ℚ} (h : optLt a b = true) : a ≠ b := by
  intro he
  rw [he, optLt_irrefl] at h
  cases h

/-- Membership in an insertion. -/
theorem insertP_mem (x : Galaxy) (l : List Galaxy) (a : Galaxy) :
    a ∈ insertP x l ↔ a = x ∨ a ∈ l := by
  induction l with
  | nil => simp [insertP]
  | cons y ys ih =>
    unfold insertP
    by_cases hyx : optLt y.redshift x.redshift = true
    · rw [if_pos hyx]
      simp [ih]
      tauto
    · rw [if_neg hyx]
      simp

/-- Membership is preserved by the pure sort. -/
theorem sortP_mem (l : List Galaxy) (a : Galaxy) : a ∈ sortP l ↔ a ∈ l := by
  induction l with
  | nil => simp [sortP]
  | cons x xs ih =>
    unfold sortP
    rw [insertP_mem, ih]
    simp

/-- An insertion is never empty. -/
theorem insertP_ne_nil (x : Galaxy) (l : List Galaxy) : insertP x l ≠ [] := by
  cases l with
  | nil => simp [insertP]
  | cons y ys =>
    unfold insertP
    split <;> simp

/-- The pure sort of a non-empty list is non-empty. -/
theorem sortP_ne_nil {l : List Galaxy} (h : l ≠ []) : sortP l ≠ [] := by
  cases l with
  | nil => cases h rfl
  | cons x xs => exact insertP_ne_nil x (sortP xs)

/-- When every redshift is present, the monadic insertion agrees with
the pure one. -/
theorem insertE_allSome {x : Galaxy} {l : List Galaxy}
    (hx : x.redshift.isSome = true) (hl : ∀ g ∈ l, g.redshift.isSome = true) :
    insertE x l = .ok (insertP x l) := by
  induction l with
  | nil => rfl
  | cons y ys ih =>
    obtain ⟨a, ha⟩ := Option.isSome_iff_exists.mp (hl y (by simp))
    obtain ⟨b, hb⟩ := Option.isSome_iff_exists.mp hx
    have ihy := ih (fun g hg => hl g (by simp [hg]))
    by_cases hab : a < b
    · simp [insertE, insertP, pyLt, optLt, ha, hb, hab, ihy]
    · simp [insertE, insertP, pyLt, optLt, ha, hb, hab]

/-- When every redshift is present, the monadic sort succeeds and agrees
with the pure stable sort. -/
theorem sortE_allSome {l : List Galaxy} (hl : ∀ g ∈ l, g.redshift.isSome = true) :
    sortE l = .ok (sortP l) := by
  induction l with
  | nil => rfl
  | cons x xs ih =>
    have ihx := ih (fun g hg => hl g (by simp [hg]))
    have hx : insertE x (sortP xs) = .ok (insertP x (sortP xs)) :=
      insertE_allSome (hl x (by simp))
        (fun g hg => hl g (by simp [(sortP_mem xs g).mp hg]))
    simp [sortE, ihx, hx, sortP]

/-- A successful monadic insertion is non-empty. -/
theorem insertE_ok_ne_nil {x : Galaxy} {l r : List Galaxy} (h : insertE x l = .ok r) :
    r ≠ [] := by
  induction l generalizing r with
  | nil =>
    injection h with h
    subst h
    simp
  | cons y ys ih =>
    unfold insertE at h
    split at h
    · cases h
    · split at h
      · cases h
      · injection h with h
        subst h
        simp
    · injection h with h
      subst h
      simp

/-- A successful sort of a non-empty list is non-empty. -/
theorem sortE_ok_ne_nil {l s : List Galaxy} (hne : l ≠ []) (h : sortE l = .ok s) :
    s ≠ [] := by
  cases l with
  | nil => cases hne rfl
  | cons x xs =>
    unfold sortE at h
    split at h
    · cases h
    · exact insertE_ok_ne_nil h

/-- A list containing a None redshift and at least two galaxies makes
the sort fail with TypeError, as Python 3 cannot order None against a
float (and None against None). -/
theorem sortE_none {l : List Galaxy} (h2 : 2 ≤ l.length)
    (hex : ∃ g ∈ l, g.redshift = none) : sortE l = .error .typeError := by
  induction l with
  | nil => simp at h2
  | cons x xs ih =>
    have hxs_ne : xs ≠ [] := by
      intro he
      subst he
      simp at h2
    by_cases hexs : ∃ g ∈ xs, g.redshift = none
    · by_cases h2xs : 2 ≤ xs.length
      · simp [sortE, ih h2xs hexs]
      · obtain ⟨y, rfl⟩ : ∃ y, xs = [y] := by
          cases xs with
          | nil => cases hxs_ne rfl
          | cons y ys =>
            cases ys with
            | nil => exact ⟨y, rfl⟩
            | cons b l2 => simp at h2xs
        obtain ⟨g, hg, hgr⟩ := hexs
        have hgy : g = y := by simpa using hg
        subst hgy
        simp [sortE, insertE, hgr, pyLt_none_left]
    · obtain ⟨g, hg, hgr⟩ := hex
      have hgx : g = x := by
        rcases List.mem_cons.mp hg with h | h
        · exact h
        · exact absurd ⟨g, h, hgr⟩ hexs
      subst hgx
      have hall : ∀ g' ∈ xs, g'.redshift.isSome = true := by
        intro g' hg'
        cases hr : g'.redshift with
        | none => exact absurd ⟨g', hg', hr⟩ hexs
        | some a => rfl
      have hs := sortE_allSome hall
      obtain ⟨h, t, hht⟩ : ∃ h t, sortP xs = h :: t := by
        cases hsp : sortP xs with
        | nil => exact absurd hsp (sortP_ne_nil hxs_ne)
        | cons h t => exact ⟨h, t, rfl⟩
      simp [sortE, hs, hht, insertE, hgr, pyLt_none_right]

/-- The deduplicated redshift order is a sublist of the key sequence. -/
theorem notInPriors_sublist (acc : List (Option ℚ)) (l : List (Option ℚ)) :
    (notInPriors acc l).Sublist l := by
  induction l generalizing acc with
  | nil => simp [notInPriors]
  | cons r rest ih =>
    unfold notInPriors
    by_cases hr : r ∈ acc
    · rw [if_pos hr]
      exact (ih _).cons r
    · rw [if_neg hr]
      exact (ih _).cons₂ r

/-- Membership in the deduplicated order: kept iff present in the key
sequence and not already seen. -/
theorem notInPriors_mem (acc : List (Option ℚ)) (l : List (Option ℚ)) (z : Option ℚ) :
    z ∈ notInPriors acc l ↔ z ∈ l ∧ z ∉ acc := by
  induction l generalizing acc with
  | nil => simp [notInPriors]
  | cons r rest ih =>
    unfold notInPriors
    by_cases hr : r ∈ acc
    · rw [if_pos hr, ih]
      simp only [List.mem_append, List.mem_singleton, List.mem_cons]
      constructor
      · rintro ⟨hz, hacc⟩
        exact ⟨Or.inr hz, fun h => hacc (Or.inl h)⟩
      · rintro ⟨hz | hz, hacc⟩
        · subst hz
          exact absurd hr hacc
        · refine ⟨hz, fun h => hacc ?_⟩
          rcases h with h | h | h
          · exact h
          · rw [h]
            exact hr
          · simp at h
    · rw [if_neg hr]
      simp only [List.mem_cons, ih, List.mem_append, List.mem_singleton]
      constructor
      · rintro (rfl | ⟨hz, hacc⟩)
        · exact ⟨Or.inl rfl, hr⟩
        · exact ⟨Or.inr hz, fun h => hacc (Or.inl h)⟩
      · rintro ⟨rfl | hz, hacc⟩
        · exact Or.inl rfl
        · by_cases hzr : z = r
          · exact Or.inl hzr
          · exact Or.inr ⟨hz, fun h => by tauto⟩

/-- The deduplicated order has no duplicates. -/
theorem notInPriors_nodup (acc : List (Option ℚ)) (l : List (Option ℚ)) :
    (notInPriors acc l).Nodup := by
  induction l generalizing acc with
  | nil => simp [notInPriors]
  | cons r rest ih =>
    unfold notInPriors
    by_cases hr : r ∈ acc
    · rw [if_pos hr]
      exact ih _
    · rw [if_neg hr]
      refine List.nodup_cons.mpr ⟨?_, ih _⟩
      intro hmem
      exact ((notInPriors_mem _ _ _).mp hmem).2 (by simp)

/-- When every key equals k and k was already seen, deduplication yields
nothing. -/
theorem notInPriors_all_seen (k : Option ℚ) (acc : List (Option ℚ))
    (l : List (Option ℚ)) (hk : k ∈ acc) (hl : ∀ r ∈ l, r = k) :
    notInPriors acc l = [] := by
  induction l generalizing acc with
  | nil => rfl
  | cons r rest ih =>
    have hr : r = k := hl r (by simp)
    subst hr
    unfold notInPriors
    rw [if_pos hk]
    exact ih _ (by simp) (fun r' hr' => hl r' (by simp [hr']))

/-- Deduplicating a non-empty constant key sequence yields the single
key. -/
theorem notInPriors_const (k : Option ℚ) (l : List (Option ℚ)) (hne : l ≠ [])
    (hl : ∀ r ∈ l, r = k) : notInPriors [] l = [k] := by
  cases l with
  | nil => cases hne rfl
  | cons r rest =>
    have hr : r = k := hl r (by simp)
    subst hr
    unfold notInPriors
    rw [if_neg (by simp)]
    rw [notInPriors_all_seen r _ _ (by simp) (fun r' hr' => hl r' (by simp [hr']))]

/-- Filtering an insertion by redshift value: the new galaxy lands in
front of the equal-redshift galaxies it was inserted among (stability),
since every galaxy it was walked past has a strictly smaller
redshift. -/
theorem filter_insertP (z : Option ℚ) (x : Galaxy) (l : List Galaxy) :
    (insertP x l).filter (fun g => decide (g.redshift = z)) =
    if x.redshift = z then x :: l.filter (fun g => decide (g.redshift = z))
    else l.filter (fun g => decide (g.redshift = z)) := by
  induction l with
  | nil =>
    unfold insertP
    by_cases hxz : x.redshift = z
    · rw [if_pos hxz]
      simp [List.filter_cons, hxz]
    · rw [if_neg hxz]
      simp [List.filter_cons, hxz]
  | cons y ys ih =>
    unfold insertP
    by_cases hyx : optLt y.redshift x.redshift = true
    · rw [if_pos hyx]
      by_cases hxz : x.redshift = z
      · have hyz : ¬ (y.redshift = z) := by
          intro he
          exact optLt_ne hyx (he.trans hxz.symm)
        rw [if_pos hxz]
        simp [List.filter_cons, hyz, ih, hxz]
      · rw [if_neg hxz]
        by_cases hyz : y.redshift = z
        · simp [List.filter_cons, hyz, ih, hxz]
        · simp [List.filter_cons, hyz, ih, hxz]
    · rw [if_neg hyx]
      by_cases hxz : x.redshift = z
      · rw [if_pos hxz]
        simp [List.filter_cons, hxz]
      · rw [if_neg hxz]
        simp [List.filter_cons, hxz]

/-- Stability of the sort: filtering the sorted galaxies by one redshift
value returns exactly the input-order subsequence with that redshift. -/
theorem filter_sortP (z : Option ℚ) (l : List Galaxy) :
    (sortP l).filter (fun g => decide (g.redshift = z)) =
    l.filter (fun g => decide (g.redshift = z)) := by
  induction l with
  | nil => rfl
  | cons x xs ih =>
    unfold sortP
    rw [filter_insertP]
    by_cases hxz : x.redshift = z
    · rw [if_pos hxz]
      simp [List.filter_cons, hxz, ih]
    · rw [if_neg hxz]
      simp [List.filter_cons, hxz, ih]

/-- Inserting a galaxy with a present redshift into a sorted list with
present redshifts keeps the not-greater-than ordering. -/
theorem insertP_pairwise {x : Galaxy} {l : List Galaxy}
    (hx : x.redshift.isSome = true) (hl : ∀ g ∈ l, g.redshift.isSome = true)
    (hp : l.Pairwise (fun a b => optLt b.redshift a.redshift = false)) :
    (insertP x l).Pairwise (fun a b => optLt b.redshift a.redshift = false) := by
  induction l with
  | nil => simp [insertP]
  | cons y ys ih =>
    unfold insertP
    rcases List.pairwise_cons.mp hp with ⟨hy, hys⟩
    by_cases hyx : optLt y.redshift x.redshift = true
    · rw [if_pos hyx]
      refine List.pairwise_cons.mpr ⟨?_, ?_⟩
      · intro b hb
        rcases (insertP_mem x ys b).mp hb with rfl | hbys
        · obtain ⟨a, ha⟩ := Option.isSome_iff_exists.mp (hl y (by simp))
          obtain ⟨c, hc⟩ := Option.isSome_iff_exists.mp hx
          rw [ha, hc] at hyx ⊢
          simp only [optLt, decide_eq_true_eq] at hyx
          simp only [optLt, decide_eq_false_iff_not]
          exact not_lt.mpr (le_of_lt hyx)
        · exact hy b hbys
      · exact ih (fun g hg => hl g (by simp [hg])) hys
    · rw [if_neg hyx]
      refine List.pairwise_cons.mpr ⟨?_, hp⟩
      intro b hb
      rcases List.mem_cons.mp hb with rfl | hbys
      · exact Bool.eq_false_iff.mpr hyx
      · have hyb := hy b hbys
        obtain ⟨a, ha⟩ := Option.isSome_iff_exists.mp (hl y (by simp))
        obtain ⟨c, hc⟩ := Option.isSome_iff_exists.mp hx
        obtain ⟨d, hd⟩ := Option.isSome_iff_exists.mp (hl b (by simp [hbys]))
        rw [ha, hc] at hyx
        rw [hd, ha] at hyb
        rw [hd, hc]
        simp only [optLt, decide_eq_true_eq] at hyx
        simp only [optLt, decide_eq_false_iff_not] at hyb ⊢
        have h1 : c ≤ a := not_lt.mp hyx
        have h2 : a ≤ d := not_lt.mp hyb
        exact not_lt.mpr (h1.trans h2)

/-- The pure sort of galaxies with present redshifts is sorted by
not-greater-than on redshift. -/
theorem sortP_pairwise {l : List Galaxy} (hl : ∀ g ∈ l, g.redshift.isSome = true) :
    (sortP l).Pairwise (fun a b => optLt b.redshift a.redshift = false) := by
  induction l with
  | nil => simp [sortP]
  | cons x xs ih =>
    unfold sortP
    exact insertP_pairwise (hl x (by simp))
      (fun g hg => hl g (by simp [(sortP_mem xs g).mp hg]))
      (ih (fun g hg => hl g (by simp [hg])))

/-- C8 amended: a galaxy list mixing present and absent redshifts makes
MultiTracer construction fail, but with the TypeError raised by sorting
None against a float, not with the RayTracingException('a galaxy was not
correctly allocated a plane') — that branch of the loop is
unreachable. -/
theorem claimC8 (gs : List Galaxy) (mi : MaskedImage) (c : Option Cosmology) (ck : ℚ)
    (hnone : ∃ g ∈ gs, g.redshift = none) (hsome : ∃ g ∈ gs, g.redshift.isSome = true) :
    multiTracerInit gs mi c ck = .error .typeError := by
  have h2 : 2 ≤ gs.length := by
    obtain ⟨g1, hg1, hr1⟩ := hnone
    obtain ⟨g2, hg2, hr2⟩ := hsome
    cases gs with
    | nil => simp at hg1
    | cons a l =>
      cases l with
      | nil =>
        have e1 : g1 = a := by simpa using hg1
        have e2 : g2 = a := by simpa using hg2
        rw [e1] at hr1
        rw [e2] at hr2
        rw [hr1] at hr2
        cases hr2
      | cons b l2 => simp
  have hs := sortE_none h2 hnone
  simp [multiTracerInit, hs]

/-- C8 counterexample: with one redshift-bearing and one redshift-less
galaxy and a cosmology, MultiTracer construction raises TypeError, which
is not the RayTracingException the claim states. -/
theorem claimC8_counterexample :
    multiTracerInit [gZ1, gNone] cMi (some cW) 1 = .error .typeError ∧
    PyError.typeError ≠ PyError.rayTracingException :=
  ⟨rfl, by decide⟩

/-- Witness for C8 (amended) at the concrete mixed list. -/
theorem claimC8_witness :
    multiTracerInit [gZ1, gNone] cMi (some cW) 1 = .error .typeError :=
  claimC8 [gZ1, gNone] cMi (some cW) 1 ⟨gNone, by simp, rfl⟩ ⟨gZ1, by simp, rfl⟩

/-- Whatever a successful MultiTracer construction produced, its stored
fields are exactly the sorted galaxy order, the deduplicated redshift
order, the per-redshift galaxy groups taken from the sorted order, and
the planes built by the loop. -/
theorem multiTracerInit_ok {gs : List Galaxy} {mi : MaskedImage} {c : Option Cosmology}
    {ck : ℚ} {t : MultiTracer} (h : multiTracerInit gs mi c ck = .ok t) :
    sortE gs = .ok t.galaxiesRedshiftOrder ∧
    t.planesRedshiftOrder = notInPriors [] (t.galaxiesRedshiftOrder.map (fun g => g.redshift)) ∧
    t.planesGalaxies = t.planesRedshiftOrder.map
      (fun z => t.galaxiesRedshiftOrder.filter (fun g => decide (g.redshift = z))) ∧
    mtGo c ck t.planesRedshiftOrder t.planesGalaxies mi 0 []
      t.planesRedshiftOrder.length = .ok t.planes := by
  unfold multiTracerInit at h
  split at h
  · cases h
  · rename_i s hs
    split at h
    · cases h
    · rename_i planes hm
      injection h with h
      subst h
      exact ⟨hs, rfl, rfl, hm⟩

/-- A plane built at loop index 0 forces the redshift order to have at
least two entries, since the branch reads planes_redshift_order[1]. -/
theorem mtBranch_zero {c : Option Cosmology} {ck : ℚ} {order : List (Option ℚ)}
    {groups : List (List Galaxy)} {mi : MaskedImage} {acc : List Plane} {pl : Plane}
    (h : mtBranch c ck order groups mi acc 0 = .ok pl) : 1 < order.length := by
  unfold mtBranch at h
  rw [if_pos rfl] at h
  cases hp : pyGet order 1 with
  | error e => rw [hp] at h; cases h
  | ok nz => exact (List.getElem?_eq_some.mp (pyGet_ok hp)).1

/-- C10: a non-empty galaxy list with a single shared redshift makes
MultiTracer construction fail with IndexError (the first loop iteration
reads planes_redshift_order[1]), not RayTracingException; and any
successful construction from a non-empty list has at least two distinct
redshifts in its plane order. -/
theorem claimC10 :
    (∀ gs mi c ck z, gs ≠ [] → (∀ g ∈ gs, g.redshift = some z) →
        multiTracerInit gs mi c ck = .error .indexError) ∧
    (∀ gs mi c ck t, gs ≠ [] → multiTracerInit gs mi c ck = .ok t →
        2 ≤ t.planesRedshiftOrder.length) := by
  constructor
  · intro gs mi c ck z hne hz
    have hall : ∀ g ∈ gs, g.redshift.isSome = true := by
      intro g hg
      rw [hz g hg]
      rfl
    have hs := sortE_allSome hall
    have hkeys : ∀ r ∈ (sortP gs).map (fun g => g.redshift), r = some z := by
      intro r hr
      obtain ⟨g, hg, rfl⟩ := List.mem_map.mp hr
      exact hz g ((sortP_mem gs g).mp hg)
    have hkne : (sortP gs).map (fun g => g.redshift) ≠ [] := by
      intro he
      exact sortP_ne_nil hne (List.map_eq_nil_iff.mp he)
    have horder := notInPriors_const (some z) _ hkne hkeys
    simp only [multiTracerInit, hs, horder]
    simp [mtGo, mtBranch, pyGet]
  · intro gs mi c ck t hne h
    obtain ⟨hs, horder, hgroups, hm⟩ := multiTracerInit_ok h
    have hsne : t.galaxiesRedshiftOrder ≠ [] := sortE_ok_ne_nil hne hs
    obtain ⟨hd, tl, hht⟩ : ∃ hd tl, t.galaxiesRedshiftOrder = hd :: tl := by
      cases hcase : t.galaxiesRedshiftOrder with
      | nil => exact absurd hcase hsne
      | cons a b => exact ⟨a, b, rfl⟩
    have horder2 : t.planesRedshiftOrder =
        hd.redshift :: notInPriors ([] ++ [hd.redshift]) (tl.map (fun g => g.redshift)) := by
      rw [horder, hht]
      simp [notInPriors]
    rw [horder2] at hm ⊢
    simp only [List.length_cons] at hm ⊢
    simp only [mtGo] at hm
    cases hb : mtBranch c ck
        (hd.redshift :: notInPriors ([] ++ [hd.redshift]) (tl.map (fun g => g.redshift)))
        t.planesGalaxies mi [] 0 with
    | error e => rw [hb] at hm; cases hm
    | ok pl =>
      have hlt := mtBranch_zero hb
      simp only [List.length_cons] at hlt
      omega

/-- Witness for C10: two equal-redshift galaxies fail with IndexError;
the successful two-redshift fixture has a plane order of length two. -/
theorem claimC10_witness :
    multiTracerInit [gZ1, gZ1b] cMi none 1 = .error .indexError ∧
    2 ≤ mtW.planesRedshiftOrder.length := by
  constructor
  · exact claimC10.1 [gZ1, gZ1b] cMi none 1 1 (by simp) (by decide)
  · exact claimC10.2 [gZ1, gZ2] cMi none 1 mtW (by simp) rfl

/-- C2: for every galaxy list whose members all carry a redshift, a
successful MultiTracer construction orders its planes by strictly
ascending redshift, the plane redshifts are exactly the distinct galaxy
redshifts, and the galaxies of each plane are the input-order
subsequence with that redshift (equal redshifts merge into one plane
preserving input order, by stability of the sort). -/
theorem claimC2 (gs : List Galaxy) (mi : MaskedImage) (c : Option Cosmology) (ck : ℚ)
    (t : MultiTracer) (hall : ∀ g ∈ gs, g.redshift.isSome = true)
    (h : multiTracerInit gs mi c ck = .ok t) :
    t.planesRedshiftOrder.Pairwise (fun a b => optLt a b = true) ∧
    (∀ z, z ∈ t.planesRedshiftOrder ↔ z ∈ gs.map (fun g => g.redshift)) ∧
    (∀ (i : ℕ) (z : Option ℚ), t.planesRedshiftOrder[i]? = some z →
        t.planesGalaxies[i]? = some (gs.filter (fun g => decide (g.redshift = z)))) := by
  obtain ⟨hs, horder, hgroups, -⟩ := multiTracerInit_ok h
  have hsort : t.galaxiesRedshiftOrder = sortP gs := by
    rw [sortE_allSome hall] at hs
    injection hs with hs
    exact hs.symm
  refine ⟨?_, ?_, ?_⟩
  · rw [horder, hsort]
    have hkeys : ((sortP gs).map (fun g => g.redshift)).Pairwise
        (fun a b => optLt b a = false) := List.pairwise_map.mpr (sortP_pairwise hall)
    have hsub := notInPriors_sublist [] ((sortP gs).map (fun g => g.redshift))
    have hp1 := List.Pairwise.sublist hsub hkeys
    have hnd : (notInPriors [] ((sortP gs).map (fun g => g.redshift))).Pairwise
        (fun a b => a ≠ b) := notInPriors_nodup _ _
    have hand := hp1.and hnd
    refine List.Pairwise.imp_of_mem ?_ hand
    intro a b ha hb hr
    have hsome : ∀ u ∈ notInPriors [] ((sortP gs).map fun g => g.redshift),
        u.isSome = true := by
      intro u hu
      have hu2 := ((notInPriors_mem _ _ _).mp hu).1
      obtain ⟨g, hg, rfl⟩ := List.mem_map.mp hu2
      exact hall g ((sortP_mem gs g).mp hg)
    obtain ⟨x, hx⟩ := Option.isSome_iff_exists.mp (hsome a ha)
    obtain ⟨y, hy⟩ := Option.isSome_iff_exists.mp (hsome b hb)
    obtain ⟨h1, h2⟩ := hr
    rw [hx, hy] at h1 h2 ⊢
    simp only [optLt, decide_eq_false_iff_not] at h1
    simp only [optLt, decide_eq_true_eq]
    have hxy : x ≠ y := fun he => h2 (by rw [he])
    exact lt_of_le_of_ne (not_lt.mp h1) hxy
  · intro z
    rw [horder, hsort, notInPriors_mem]
    simp [List.mem_map, sortP_mem]
  · intro i z hi
    rw [hgroups, hsort, List.getElem?_map, hi]
    simp [filter_sortP]

/-- Witness for C2 at the tie-break scenario [gaW(z=2), gbW(z=1),
gcW(z=2)]: plane order [1, 2], redshift 2 present, and the redshift-2
plane holds gaW before gcW exactly as in the input. -/
theorem claimC2_witness :
    mtW3.planesRedshiftOrder.Pairwise (fun a b => optLt a b = true) ∧
    (some (2 : ℚ) ∈ mtW3.planesRedshiftOrder ↔
      some (2 : ℚ) ∈ [gaW, gbW, gcW].map (fun g => g.redshift)) ∧
    mtW3.planesGalaxies[1]? =
      some ([gaW, gbW, gcW].filter (fun g => decide (g.redshift = some 2))) := by
  have h := claimC2 [gaW, gbW, gcW] cMi none 1 mtW3 (by decide) rfl
  exact ⟨h.1, h.2.1 (some 2), h.2.2 1 (some 2) rfl⟩

/-- A successful element lookup in a zipWith. -/
theorem getElem?_zipWith_of_both {f : α → β → γ} {a : List α} {b : List β} {k : ℕ}
    {x : α} {y : β} (hx : a[k]? = some x) (hy : b[k]? = some y) :
    (List.zipWith f a b)[k]? = some (f x y) := by
  obtain ⟨hxk, hxe⟩ := List.getElem?_eq_some.mp hx
  obtain ⟨hyk, hye⟩ := List.getElem?_eq_some.mp hy
  have hk : k < (List.zipWith f a b).length := by
    rw [List.length_zipWith]
    exact lt_min hxk hyk
  rw [List.getElem?_eq_getElem hk, List.getElem_zipWith]
  rw [hxe, hye]

/-- A successful trace returns the traced masked image of the plane's
deflection stack. -/
theorem traceToNextPlane_ok {p : Plane} {m : MaskedImage} {d : GridStack}
    (htr : traceToNextPlane p = .ok m) (hd : p.deflections = some d) :
    m = tracedMaskedImage p.maskedImage d := by
  unfold traceToNextPlane at htr
  rw [hd] at htr
  simp only [Except.ok.injEq] at htr
  exact htr.symm

/-- Whatever a successful two-plane Tracer construction produced: the
source galaxy and lens galaxy heads exist, the image plane was built on
the input masked image with deflections, and the source plane was built
on the traced image without deflections. -/
theorem tracerInit_ok {lg sg : List Galaxy} {mi : MaskedImage} {c : Option Cosmology}
    {ck : ℚ} {t : Tracer} (h : tracerInit lg sg mi c ck = .ok t) :
    ∃ s0 l0 spmi,
      sg[0]? = some s0 ∧ lg[0]? = some l0 ∧
      planeInit lg mi none s0.redshift c ck true = .ok t.imagePlane ∧
      traceToNextPlane t.imagePlane = .ok spmi ∧
      planeInit sg spmi l0.redshift none c ck false = .ok t.sourcePlane := by
  unfold tracerInit at h
  split at h
  · cases h
  · rename_i s0 hs0
    split at h
    · cases h
    · rename_i ip hip
      split at h
      · cases h
      · rename_i spmi htr
        split at h
        · cases h
        · rename_i l0 hl0
          split at h
          · cases h
          · rename_i sp hsrc
            injection h with h
            subst h
            exact ⟨s0, l0, spmi, pyGet_ok hs0, pyGet_ok hl0, hip, htr, hsrc⟩

/-- C1: in a two-plane tracer the source plane's masked image is the
image plane's masked image traced by the image plane's own deflection
stack: for every index k of each point category (regular, sub,
blurring), source point k = image point k minus the image plane's
deflection at index k, in a single step using only the image plane's
deflection field. -/
theorem claimC1 (lg sg : List Galaxy) (mi : MaskedImage) (c : Option Cosmology) (ck : ℚ)
    (t : Tracer) (h : tracerInit lg sg mi c ck = .ok t) :
    t.imagePlane.maskedImage = mi ∧
    t.imagePlane.deflections = some (deflectionsFor mi lg) ∧
    t.sourcePlane.maskedImage = tracedMaskedImage mi (deflectionsFor mi lg) ∧
    (∀ (k : ℕ) (p d : Point), mi.regular[k]? = some p →
        (deflectionsFor mi lg).regular[k]? = some d →
        t.sourcePlane.maskedImage.regular[k]? = some (subPoint p d)) ∧
    (∀ (k : ℕ) (p d : Point), mi.sub[k]? = some p →
        (deflectionsFor mi lg).sub[k]? = some d →
        t.sourcePlane.maskedImage.sub[k]? = some (subPoint p d)) ∧
    (∀ (k : ℕ) (p d : Point), mi.blurring[k]? = some p →
        (deflectionsFor mi lg).blurring[k]? = some d →
        t.sourcePlane.maskedImage.blurring[k]? = some (subPoint p d)) := by
  obtain ⟨s0, l0, spmi, hs0, hl0, hip, htr, hsrc⟩ := tracerInit_ok h
  obtain ⟨hg1, hmi1, hd1⟩ := planeInit_fields hip
  simp only [if_pos] at hd1
  have hspmi : spmi = tracedMaskedImage mi (deflectionsFor mi lg) := by
    rw [traceToNextPlane_ok htr hd1, hmi1]
  obtain ⟨hg2, hmi2, hd2⟩ := planeInit_fields hsrc
  rw [hspmi] at hmi2
  refine ⟨hmi1, hd1, hmi2, ?_, ?_, ?_⟩
  · intro k p d hp hd
    rw [hmi2]
    exact getElem?_zipWith_of_both hp hd
  · intro k p d hp hd
    rw [hmi2]
    exact getElem?_zipWith_of_both hp hd
  · intro k p d hp hd
    rw [hmi2]
    exact getElem?_zipWith_of_both hp hd

/-- Witness for C1 at the concrete two-plane tracer trW: the source
grid's first regular point is the image grid's first regular point minus
the lens deflection there. -/
theorem claimC1_witness :
    trW.imagePlane.maskedImage = cMi ∧
    trW.imagePlane.deflections = some (deflectionsFor cMi [gMass]) ∧
    trW.sourcePlane.maskedImage = tracedMaskedImage cMi (deflectionsFor cMi [gMass]) ∧
    trW.sourcePlane.maskedImage.regular[0]? =
      some (subPoint ((1 : ℚ), (1 : ℚ)) (sumDeflections [gMass] ((1 : ℚ), (1 : ℚ)))) := by
  have h := claimC1 [gMass] [gSrc] cMi none 1 trW rfl
  exact ⟨h.1, h.2.1, h.2.2.1, h.2.2.2.1 0 _ _ rfl rfl⟩

/-- C5: the composite image of the two-plane tracer is the sum of the
image plane's image of the lens galaxies on the input grid and the
source plane's image of the source galaxies on the propagated (traced)
grid; likewise for the blurring-region images. -/
theorem claimC5 (lg sg : List Galaxy) (mi : MaskedImage) (c : Option Cosmology) (ck : ℚ)
    (t : Tracer) (h : tracerInit lg sg mi c ck = .ok t) :
    tracerGenerateImage t =
      addLists (intensitiesViaSubGrid mi lg)
        (intensitiesViaSubGrid (tracedMaskedImage mi (deflectionsFor mi lg)) sg) ∧
    tracerGenerateBlurringImage t =
      addLists (blurringIntensities mi lg)
        (blurringIntensities (tracedMaskedImage mi (deflectionsFor mi lg)) sg) := by
  obtain ⟨s0, l0, spmi, hs0, hl0, hip, htr, hsrc⟩ := tracerInit_ok h
  obtain ⟨hg1, hmi1, hd1⟩ := planeInit_fields hip
  simp only [if_pos] at hd1
  have hspmi : spmi = tracedMaskedImage mi (deflectionsFor mi lg) := by
    rw [traceToNextPlane_ok htr hd1, hmi1]
  obtain ⟨hg2, hmi2, hd2⟩ := planeInit_fields hsrc
  rw [hspmi] at hmi2
  constructor
  · unfold tracerGenerateImage planeGenerateImage
    rw [hg1, hmi1, hg2, hmi2]
  · unfold tracerGenerateBlurringImage planeGenerateBlurringImage
    rw [hg1, hmi1, hg2, hmi2]

/-- Witness for C5 at the concrete two-plane tracer trW. -/
theorem claimC5_witness :
    tracerGenerateImage trW =
      addLists (intensitiesViaSubGrid cMi [gMass])
        (intensitiesViaSubGrid (tracedMaskedImage cMi (deflectionsFor cMi [gMass])) [gSrc]) ∧
    tracerGenerateBlurringImage trW =
      addLists (blurringIntensities cMi [gMass])
        (blurringIntensities (tracedMaskedImage cMi (deflectionsFor cMi [gMass])) [gSrc]) :=
  claimC5 [gMass] [gSrc] cMi none 1 trW rfl

/-- A plane built by the loop body at index i computes deflections
exactly when i is not the last index of the redshift order. -/
theorem mtBranch_ok_deflections {c : Option Cosmology} {ck : ℚ}
    {order : List (Option ℚ)} {groups : List (List Galaxy)} {mi : MaskedImage}
    {acc : List Plane} {i : ℕ} {pl : Plane}
    (h : mtBranch c ck order groups mi acc i = .ok pl) :
    (pl.deflections.isSome = true ↔ i < order.length - 1) := by
  unfold mtBranch at h
  split at h
  · rename_i h0
    split at h
    · cases h
    · rename_i nz hnz
      split at h
      · cases h
      · rename_i gal hgal
        obtain ⟨-, -, hd⟩ := planeInit_fields h
        simp only [if_pos] at hd
        have hlen := (List.getElem?_eq_some.mp (pyGet_ok hnz)).1
        subst h0
        simp [hd]
        omega
  · rename_i h0
    split at h
    · rename_i hlt
      split at h
      · cases h
      · rename_i pz hpz
        split at h
        · cases h
        · rename_i nz hnz
          split at h
          · cases h
          · rename_i pp hpp
            split at h
            · cases h
            · rename_i grid hgrid
              split at h
              · cases h
              · rename_i gal hgal
                obtain ⟨-, -, hd⟩ := planeInit_fields h
                simp only [if_pos] at hd
                simp [hd, hlt]
    · rename_i hge
      split at h
      · rename_i hlast
        split at h
        · cases h
        · rename_i pz hpz
          split at h
          · cases h
          · rename_i pp hpp
            split at h
            · cases h
            · rename_i grid hgrid
              split at h
              · cases h
              · rename_i gal hgal
                obtain ⟨-, -, hd⟩ := planeInit_fields h
                simp only [if_neg (by simp : ¬ (false = true))] at hd
                simp [hd, hge]
      · cases h

/-- Invariant of the plane-building loop: every already built plane has
deflections iff its index precedes the last redshift, and a successful
run of the remaining iterations extends this to all planes while ending
with exactly one plane per redshift. -/
theorem mtGo_ok_deflections {c : Option Cosmology} {ck : ℚ}
    {order : List (Option ℚ)} {groups : List (List Galaxy)} {mi : MaskedImage} :
    ∀ (rem i : ℕ) (acc res : List Plane),
      mtGo c ck order groups mi i acc rem = .ok res →
      i + rem = order.length →
      acc.length = i →
      (∀ (j : ℕ) (p : Plane), acc[j]? = some p →
        (p.deflections.isSome = true ↔ j < order.length - 1)) →
      res.length = order.length ∧
      (∀ (j : ℕ) (p : Plane), res[j]? = some p →
        (p.deflections.isSome = true ↔ j < order.length - 1)) := by
  intro rem
  induction rem with
  | zero =>
    intro i acc res h hsum hlen hinv
    simp only [mtGo] at h
    injection h with h
    subst h
    exact ⟨by omega, hinv⟩
  | succ rem ih =>
    intro i acc res h hsum hlen hinv
    simp only [mtGo] at h
    cases hb : mtBranch c ck order groups mi acc i with
    | error e => rw [hb] at h; cases h
    | ok pl =>
      rw [hb] at h
      refine ih (i + 1) (acc ++ [pl]) res h (by omega) (by simp [hlen]) ?_
      intro j p hj
      rw [List.getElem?_append] at hj
      split at hj
      · exact hinv j p hj
      · rename_i hjge
        have hj0 : j - acc.length = 0 := by
          by_contra hne
          have h1 : 1 ≤ j - acc.length := by omega
          rw [List.getElem?_eq_none (by simpa using h1)] at hj
          cases hj
        rw [hj0] at hj
        simp only [List.getElem?_cons_zero, Option.some.injEq] at hj
        subst hj
        have hji : j = i := by omega
        subst hji
        exact mtBranch_ok_deflections hb

/-- C4: in every tracer, every plane except the last is constructed with
its deflection stack computed, and the last plane carries none — for the
two-plane Tracer the image plane has deflections and the source plane
none, and for MultiTracer plane j has deflections iff j precedes the
last plane. -/
theorem claimC4 :
    (∀ gs mi c ck t, multiTracerInit gs mi c ck = .ok t →
      ∀ (j : ℕ) (p : Plane), t.planes[j]? = some p →
        (p.deflections.isSome = true ↔ j < t.planes.length - 1)) ∧
    (∀ lg sg mi c ck t, tracerInit lg sg mi c ck = .ok t →
      t.imagePlane.deflections.isSome = true ∧ t.sourcePlane.deflections = none) := by
  constructor
  · intro gs mi c ck t h j p hj
    obtain ⟨-, -, -, hm⟩ := multiTracerInit_ok h
    obtain ⟨hlen, hinv⟩ := mtGo_ok_deflections _ 0 [] t.planes hm (by simp) rfl
      (by intro j p hj; simp at hj)
    rw [hlen]
    exact hinv j p hj
  · intro lg sg mi c ck t h
    obtain ⟨s0, l0, spmi, hs0, hl0, hip, htr, hsrc⟩ := tracerInit_ok h
    obtain ⟨-, -, hd1⟩ := planeInit_fields hip
    obtain ⟨-, -, hd2⟩ := planeInit_fields hsrc
    simp only [if_pos] at hd1
    simp only [if_neg (by simp : ¬ (false = true))] at hd2
    exact ⟨by simp [hd1], hd2⟩

/-- Witness for C4: in the concrete two-plane MultiTracer the first
plane has deflections and the second (last) does not, and in the
concrete Tracer the image plane has deflections and the source plane
none. -/
theorem claimC4_witness :
    (p0W.deflections.isSome = true ↔ 0 < mtW.planes.length - 1) ∧
    (p1W.deflections.isSome = true ↔ 1 < mtW.planes.length - 1) ∧
    trW.imagePlane.deflections.isSome = true ∧ trW.sourcePlane.deflections = none := by
  have h := claimC4
  exact ⟨h.1 [gZ1, gZ2] cMi none 1 mtW rfl 0 p0W rfl,
    h.1 [gZ1, gZ2] cMi none 1 mtW rfl 1 p1W rfl,
    h.2 [gMass] [gSrc] cMi none 1 trW rfl⟩
